import Mathlib

/-!
Verification development for the membership identity-verification and
account-approval subsystem of the Samaj_app_api backend.

The definitions below are a shallow embedding of the JavaScript source:

* identifier normalizers and registry lookups, from the Firestore signup
  handler (`routes/auth.js`, Firestore variant — `src/unnamed/part_013`,
  duplicated in `src/unnamed/part_014`);
* the signup verification phase and account write, from the same handler;
* the legacy Mongo signup classifier, from `src/routes/auth.js`;
* the authorization-slot claim write, from the handler and from
  `authorizedMemberSchema.methods.markAsUsed`;
* the admin approval routes, from `src/routes/admin.js`.

External collaborators excluded by the spec (Firebase credential store,
family-tree auto-creation, outbound email) are omitted: none of them
influences the verification decision or the modeled records.

Strings are modeled by Lean `String`; JavaScript number values that can
appear in imported registry fields are modeled by `JVal`.  JavaScript
`Number(...)` coercion (used by the normalizers on decimal- or
exponent-shaped inputs) is modeled by `jsTruncNumber`, which parses the
standard decimal/scientific literal forms and truncates toward zero,
returning `none` where JavaScript would produce `NaN`.
-/

namespace Samaj

/-- JavaScript `String.prototype.trim`: drop leading and trailing whitespace. -/
def jsTrim (s : String) : String :=
  String.mk (((s.data.dropWhile Char.isWhitespace).reverse.dropWhile Char.isWhitespace).reverse)

/-- JavaScript `String.prototype.toLowerCase` (ASCII-relevant part). -/
def jsToLower (s : String) : String :=
  String.mk (s.data.map Char.toLower)

/-- Digits of a decimal literal, folded into a natural number. -/
def digitsToNat (l : List Char) : Nat :=
  l.foldl (fun a c => a * 10 + (c.toNat - 48)) 0

/-- True when the string contains a decimal point or an exponent marker,
the JavaScript test `/[eE]|\./.test(s)`. -/
def hasEDot (s : String) : Bool :=
  s.data.any (fun c => c = 'e' || c = 'E' || c = '.')

/-- True when the string contains an exponent marker, the JavaScript test
`/e\+?/i.test(s)` (the optional plus adds nothing to matching). -/
def hasE (s : String) : Bool :=
  s.data.any (fun c => c = 'e' || c = 'E')

/-- The JavaScript test `/^[0-9]+\.[0]+$/.test(s)`: one or more digits, a
decimal point, then one or more zeros. -/
def isIntDotZeros (s : String) : Bool :=
  let l := s.data
  let ip := l.takeWhile Char.isDigit
  let rest := l.dropWhile Char.isDigit
  decide (ip ≠ []) &&
    (match rest with
     | '.' :: zs => decide (zs ≠ []) && zs.all (· = '0')
     | _ => false)

/-- `Math.trunc(Number(s))` for an already-trimmed string `s`, restricted to
the decimal and scientific literal forms (`[+-] digits [. digits]
[(e|E) [+-] digits]`); `none` models a `NaN` / non-finite result. -/
def jsTruncNumber (s : String) : Option Int :=
  let l := s.data
  let signAndRest : Int × List Char :=
    match l with
    | '-' :: rest => (-1, rest)
    | '+' :: rest => (1, rest)
    | _ => (1, l)
  let sign := signAndRest.1
  let l1 := signAndRest.2
  let ip := l1.takeWhile Char.isDigit
  let r1 := l1.dropWhile Char.isDigit
  let fpAndRest : List Char × List Char :=
    match r1 with
    | '.' :: rest => (rest.takeWhile Char.isDigit, rest.dropWhile Char.isDigit)
    | _ => ([], r1)
  let fp := fpAndRest.1
  let r2 := fpAndRest.2
  if ip.isEmpty && fp.isEmpty then none
  else
    let expAndRest : Option (Int × List Char) :=
      match r2 with
      | [] => some (0, [])
      | c :: rest =>
        if c = 'e' || c = 'E' then
          let esAndRest : Int × List Char :=
            match rest with
            | '-' :: r => (-1, r)
            | '+' :: r => (1, r)
            | _ => (1, rest)
          let ed := esAndRest.2.takeWhile Char.isDigit
          let r3 := esAndRest.2.dropWhile Char.isDigit
          if ed.isEmpty then none
          else some (esAndRest.1 * (digitsToNat ed : Int), r3)
        else none
    match expAndRest with
    | none => none
    | some (ex, rem) =>
      if rem.isEmpty then
        let mant : Nat := digitsToNat (ip ++ fp)
        let f : Int := (fp.length : Int)
        let mag : Nat :=
          if f ≤ ex then mant * 10 ^ (ex - f).toNat
          else mant / 10 ^ (f - ex).toNat
        some (sign * (mag : Int))
      else none

/-- `normalizeMemberId` from the signup handler: trim; coerce
decimal-formatted integers (such as spreadsheet artifacts `"1234.0"`) or
exponent-shaped strings through `Number`; otherwise pass through unchanged. -/
def normalizeMemberId (value : String) : String :=
  let raw := jsTrim value
  if raw = "" then ""
  else if isIntDotZeros raw || hasE raw then
    match jsTruncNumber raw with
    | some n => toString n
    | none => raw
  else raw

/-- Keep only the decimal digits of a string, JavaScript `replace(/\D/g, "")`. -/
def keepDigits (s : String) : List Char :=
  s.data.filter Char.isDigit

/-- `normalizePhoneLenient` from the signup handler: trim; coerce
decimal/exponent-shaped values through `Number` and keep the last 10
characters of the integer string; otherwise strip non-digits and keep the
last 10 digits.  Used only against registry-side phone values. -/
def normalizePhoneLenient (value : String) : String :=
  let raw := jsTrim value
  if raw = "" then ""
  else
    let fallback : String :=
      let digits := keepDigits raw
      if digits.isEmpty then ""
      else if digits.length > 10 then String.mk (digits.drop (digits.length - 10))
      else String.mk digits
    if hasEDot raw then
      match jsTruncNumber raw with
      | some n =>
        let asInt := (toString n).data
        if asInt.length > 10 then String.mk (asInt.drop (asInt.length - 10))
        else String.mk asInt
      | none => fallback
    else fallback

/-- `normalizePhoneProvided` from the signup handler (strict, applied to the
signup input): trim; coerce decimal/exponent-shaped values through `Number`;
strip non-digits; accept 11 digits with leading `0` (trunk prefix), 12
digits with leading `91` (country code), or exactly 10 digits; any other
nonzero digit count is ambiguous and yields `none`. -/
def normalizePhoneProvided (value : String) : Option String :=
  let raw := jsTrim value
  if raw = "" then some ""
  else
    let digits1 : String :=
      if hasEDot raw then
        match jsTruncNumber raw with
        | some n => toString n
        | none => raw
      else raw
    let digits := keepDigits digits1
    if digits.isEmpty then some ""
    else if digits.length = 11 && digits.head? = some '0' then
      some (String.mk (digits.drop 1))
    else if digits.length = 12 && digits.take 2 = ['9', '1'] then
      some (String.mk (digits.drop 2))
    else if digits.length = 10 then some (String.mk digits)
    else none

/-- `maybeNumber` from the signup handler: a trimmed all-digit string is a
plausible number and is coerced; anything else is `none`. -/
def maybeNumber (value : String) : Option Int :=
  let str := jsTrim value
  if str = "" then none
  else if str.data.all Char.isDigit then some ((digitsToNat str.data : Nat) : Int)
  else none

/-- A JavaScript field value as it can appear in an imported registry
document: stored either as a string or as a number. -/
inductive JVal where
  | js (v : String)
  | jn (n : Int)
deriving DecidableEq, Repr

/-- `String(v)` for a field value. -/
def JVal.asString : JVal → String
  | .js v => v
  | .jn n => toString n

/-- JavaScript truthiness of an optional field value. -/
def jvalTruthy : Option JVal → Bool
  | none => false
  | some (.js v) => v ≠ ""
  | some (.jn n) => n ≠ 0

/-- An `authorizedMembers` document (AuthorizationSlot): Firestore document
id, optionally typed `memberId` / `phoneNumber` fields, optional normalized
shadow fields, and the single-use claim fields. -/
structure AuthSlot where
  docId : String
  memberId : Option JVal
  phoneNumber : Option JVal
  memberIdNormalized : Option String
  phoneNormalized : Option String
  isUsed : Bool
  usedBy : Option String
  usedAt : Option Nat
deriving DecidableEq, Repr

/-- A `users` document (Account). -/
structure UserDoc where
  id : String
  name : String
  email : String
  role : String
  phone : String
  memberId : String
  accountStatus : String
  verificationStatus : String
  requiresAdminApproval : Bool
  rejectionReason : String
  rejectedAt : Option Nat
  rejectedBy : Option String
  approvedAt : Option Nat
  approvedBy : Option String
  reappliedAt : Option Nat
  reviewedAt : Option Nat
  reviewedBy : Option String
deriving DecidableEq, Repr

/-- The storage state the subsystem reads and writes: the accounts
collection and the authorized-members registry. -/
structure DB where
  users : List UserDoc
  registry : List AuthSlot
deriving DecidableEq, Repr

/-- `getAuthorizedByMemberId` from the signup handler: (1) fetch by document
id; (2) field equality on the string form; (3) field equality on the
numeric-coerced form when plausible; (4) field equality on the stored
normalized shadow field; first hit wins, `none` otherwise. -/
def getAuthorizedByMemberId (v : String) (reg : List AuthSlot) : Option AuthSlot :=
  if v = "" then none
  else
    match reg.find? (fun s => s.docId = v) with
    | some s => some s
    | none =>
      match reg.find? (fun s => s.memberId = some (.js v)) with
      | some s => some s
      | none =>
        let byNormalized := reg.find? (fun s => s.memberIdNormalized = some v)
        match maybeNumber v with
        | some n =>
          match reg.find? (fun s => s.memberId = some (.jn n)) with
          | some s => some s
          | none => byNormalized
        | none => byNormalized

/-- `getAuthorizedByPhone` from the signup handler: field equality on the
string form, then on the numeric-coerced form when plausible, then on the
stored normalized shadow field; there is no document-id fetch. -/
def getAuthorizedByPhone (v : String) (reg : List AuthSlot) : Option AuthSlot :=
  if v = "" then none
  else
    match reg.find? (fun s => s.phoneNumber = some (.js v)) with
    | some s => some s
    | none =>
      let byNormalized := reg.find? (fun s => s.phoneNormalized = some v)
      match maybeNumber v with
      | some n =>
        match reg.find? (fun s => s.phoneNumber = some (.jn n)) with
        | some s => some s
        | none => byNormalized
      | none => byNormalized

/-- `normalizeMemberId(authorizedMember.memberId || authorizedMember.id)`:
the slot-side member id the classifier compares against. -/
def slotNormMemberId (s : AuthSlot) : String :=
  normalizeMemberId (if jvalTruthy s.memberId then (s.memberId.getD (.js "")).asString else s.docId)

/-- `normalizePhoneLenient(authorizedMember.phoneNumber)`: the slot-side
phone the classifier compares against (`String(value ?? "")` maps a missing
field to the empty string). -/
def slotLenientPhone (s : AuthSlot) : String :=
  normalizePhoneLenient (match s.phoneNumber with
    | some j => j.asString
    | none => "")

/-- The storage lookups the verification phase awaits; each can raise, which
the handler catches.  `Except Unit` models a rejected promise. -/
structure VerifyEnv where
  lookupMember : String → Except Unit (Option AuthSlot)
  lookupPhone : String → Except Unit (Option AuthSlot)
  getUserById : String → Except Unit (Option UserDoc)

/-- The decision data produced by the verification phase: the
`isVerified` / `accountStatus` / `verificationStatus` /
`requiresAdminApproval` variables of the handler, the `authorizedMember`
local after any stale-lock mutation, and the id of a slot whose stale lock
was reset (the one best-effort registry write of the phase). -/
structure VerifyOutcome where
  isVerified : Bool
  accountStatus : String
  verificationStatus : String
  requiresAdminApproval : Bool
  authorizedMember : Option AuthSlot
  staleReset : Option String
deriving DecidableEq, Repr

/-- A pending-admin outcome with the given slot and stale-reset record. -/
def pendingOutcome (am : Option AuthSlot) (reset : Option String) : VerifyOutcome :=
  { isVerified := false
    accountStatus := "pending"
    verificationStatus := "pending_admin"
    requiresAdminApproval := true
    authorizedMember := am
    staleReset := reset }

/-- The auto-approve outcome (the initial `approved` / `verified` values are
kept and `isVerified` is set). -/
def verifiedOutcome (am : Option AuthSlot) (reset : Option String) : VerifyOutcome :=
  { isVerified := true
    accountStatus := "approved"
    verificationStatus := "verified"
    requiresAdminApproval := false
    authorizedMember := am
    staleReset := reset }

/-- How the verification phase ends: an invalid-phone 400, a
duplicate-registration 400, or a decision the account write consumes. -/
inductive VerifyResult where
  | invalidPhone
  | duplicate
  | done (o : VerifyOutcome)
deriving DecidableEq, Repr

/-- The classification of a signup against a slot that is not marked used
(the `else if (authorizedMember)` branch): auto-approve exactly when both
the member id and the phone agree, pending-admin otherwise. -/
def classifySlot (s : AuthSlot) (nmid np : String) : VerifyOutcome :=
  let aMid := slotNormMemberId s
  let aPhone := slotLenientPhone s
  let midMatch := aMid ≠ "" && nmid = aMid
  let phMatch := aPhone ≠ "" && np = aPhone
  if midMatch && phMatch then verifiedOutcome (some s) none
  else pendingOutcome (some s) none

/-- The body of the handler's verification `try` block (lines 387-502 of the
Firestore signup route): strict phone validation, registry lookup by member
id with phone fallback, live-claim blocking, stale-lock reset, and match
classification.  A raised storage error propagates to the caller. -/
def verifyInner (env : VerifyEnv) (nmid phone : String) : Except Unit VerifyResult :=
  match normalizePhoneProvided phone with
  | none => .ok .invalidPhone
  | some np =>
    if np = "" then .ok (.done (pendingOutcome none none))
    else
      match env.lookupMember nmid with
      | .error e => .error e
      | .ok am0 =>
        let amE : Except Unit (Option AuthSlot) :=
          match am0 with
          | some s => .ok (some s)
          | none => env.lookupPhone np
        match amE with
        | .error e => .error e
        | .ok none => .ok (.done (pendingOutcome none none))
        | .ok (some s) =>
          if s.isUsed then
            let aMid := slotNormMemberId s
            let aPhone := slotLenientPhone s
            let midMatch := aMid ≠ "" && nmid = aMid
            let phMatch := aPhone ≠ "" && np = aPhone
            if midMatch || phMatch then
              let usedByE : Except Unit (Option UserDoc) :=
                match s.usedBy with
                | some uid => if uid = "" then .ok none else env.getUserById uid
                | none => .ok none
              match usedByE with
              | .error e => .error e
              | .ok (some _) => .ok .duplicate
              | .ok none =>
                let s' : AuthSlot := { s with isUsed := false, usedBy := none, usedAt := none }
                if midMatch && phMatch then .ok (.done (verifiedOutcome (some s') (some s.docId)))
                else .ok (.done (pendingOutcome (some s') (some s.docId)))
            else .ok (.done (pendingOutcome (some s) none))
          else .ok (.done (classifySlot s nmid np))

/-- The verification phase with its `catch`: any unexpected error forces the
pending-admin decision instead of failing the signup.  (The route only reads
`authorizedMember` when `isVerified` holds, so the caught-error outcome
models it as `none`.) -/
def verifyPhase (env : VerifyEnv) (nmid phone : String) : VerifyResult :=
  match verifyInner env nmid phone with
  | .ok r => r
  | .error _ => .done (pendingOutcome none none)

/-- The storage collaborator backed by the in-memory `DB`; these lookups
never raise. -/
def pureEnv (db : DB) : VerifyEnv :=
  { lookupMember := fun v => .ok (getAuthorizedByMemberId v db.registry)
    lookupPhone := fun v => .ok (getAuthorizedByPhone v db.registry)
    getUserById := fun uid => .ok (db.users.find? (fun u => u.id = uid)) }

/-- The request body of `POST /api/auth/signup`. -/
structure SignupReq where
  name : String
  email : String
  password : String
  phone : String
  memberId : String
deriving DecidableEq, Repr

/-- How a signup request ends: a 4xx rejection carrying the response
message (no record written), or a created/updated account together with the
resulting storage state. -/
inductive SignupResult where
  | error (msg : String)
  | created (db : DB) (user : UserDoc)
deriving DecidableEq, Repr

/-- `isReapplicable` from the signup handler. -/
def isReapplicable (u : UserDoc) : Bool :=
  u.accountStatus = "pending" || u.accountStatus = "rejected"

/-- The existing-user / re-apply resolution of the signup handler (lines
263-314): a member-id collision is re-appliable only when the record also
carries the same email and is pending/rejected, an email collision only when
the record also carries the same member id and is pending/rejected; anything
else is a 400. -/
def reapplyCheck (byMid byEmail : Option UserDoc) (nEmail nmid : String) :
    Except String (Option UserDoc) :=
  let step1 : Except String (Option UserDoc) :=
    match byMid with
    | some u =>
      if u.email = nEmail && isReapplicable u then .ok (some u)
      else .error "Member ID already exists. Please use a different Member ID."
    | none => .ok none
  match step1 with
  | .error msg => .error msg
  | .ok reapplyUser =>
    match byEmail with
    | some u =>
      match reapplyUser with
      | none =>
        if u.memberId = nmid && isReapplicable u then .ok (some u)
        else .error "User already exists with this email"
      | some ru =>
        if u.id ≠ ru.id then .error "Email / Member ID conflict. Please contact admin."
        else .ok (some ru)
    | none => .ok reapplyUser

/-- The mark-as-used registry write (signup handler lines 655-663, and the
Mongoose `authorizedMemberSchema.methods.markAsUsed`): an unconditional
update of `isUsed` / `usedBy` / `usedAt` on the slot. -/
def claimWrite (reg : List AuthSlot) (sid uid : String) (now : Nat) : List AuthSlot :=
  reg.map (fun s =>
    if s.docId = sid then { s with isUsed := true, usedBy := some uid, usedAt := some now }
    else s)

/-- `authorizedMemberSchema.methods.markAsUsed` on a single document. -/
def markAsUsed (s : AuthSlot) (uid : String) (now : Nat) : AuthSlot :=
  { s with isUsed := true, usedBy := some uid, usedAt := some now }

/-- The stale-lock reset write issued during the verification phase. -/
def applyStaleReset (reg : List AuthSlot) : Option String → List AuthSlot
  | some sid =>
    reg.map (fun s =>
      if s.docId = sid then { s with isUsed := false, usedBy := none, usedAt := none }
      else s)
  | none => reg

/-- The signup route, parameterized by the storage lookups of the
verification phase; `newId` is the document id given to a newly created
account and `now` the wall clock.  The Firebase credential store,
family-tree auto-creation and email sending of the route are external
collaborators with no effect on the modeled records. -/
def signupWith (env : VerifyEnv) (db : DB) (req : SignupReq) (newId : String) (now : Nat) :
    SignupResult :=
  let normalizedEmail := jsToLower (jsTrim req.email)
  let normalizedMemberId := normalizeMemberId req.memberId
  if req.name = "" || normalizedEmail = "" || req.password = "" || normalizedMemberId = "" then
    .error "Please provide name, email, password, and Member ID"
  else
    let existingByMemberId := db.users.find? (fun u => u.memberId = normalizedMemberId)
    let existingByEmail := db.users.find? (fun u => u.email = normalizedEmail)
    match reapplyCheck existingByMemberId existingByEmail normalizedEmail normalizedMemberId with
    | .error msg => .error msg
    | .ok reapplyUser =>
      match verifyPhase env normalizedMemberId req.phone with
      | .invalidPhone =>
        .error "Invalid phone number. Please enter a 10-digit phone number (or +91 / leading 0)."
      | .duplicate =>
        .error "This Member ID / phone number is already registered. Please login or contact admin."
      | .done o =>
        let reg1 := applyStaleReset db.registry o.staleReset
        let phoneField :=
          if jsTrim req.phone ≠ "" then (normalizePhoneProvided req.phone).getD "" else ""
        let savedAndUsers : UserDoc × List UserDoc :=
          match reapplyUser with
          | some ru =>
            let upd : UserDoc → UserDoc := fun u =>
              if u.id = ru.id then
                { u with
                  name := req.name, email := normalizedEmail, role := "user"
                  phone := phoneField, memberId := normalizedMemberId
                  accountStatus := o.accountStatus
                  verificationStatus := o.verificationStatus
                  requiresAdminApproval := o.requiresAdminApproval
                  rejectionReason := "", rejectedAt := none, rejectedBy := none
                  approvedAt := none, approvedBy := none, reappliedAt := some now }
              else u
            (upd ru, db.users.map upd)
          | none =>
            let newUser : UserDoc :=
              { id := newId
                name := req.name, email := normalizedEmail, role := "user"
                phone := phoneField, memberId := normalizedMemberId
                accountStatus := o.accountStatus
                verificationStatus := o.verificationStatus
                requiresAdminApproval := o.requiresAdminApproval
                rejectionReason := "", rejectedAt := none, rejectedBy := none
                approvedAt := none, approvedBy := none, reappliedAt := none
                reviewedAt := none, reviewedBy := none }
            (newUser, db.users ++ [newUser])
        let savedUser := savedAndUsers.1
        let reg2 :=
          if o.isVerified then
            match o.authorizedMember with
            | some am => claimWrite reg1 am.docId savedUser.id now
            | none => reg1
          else reg1
        .created { users := savedAndUsers.2, registry := reg2 } savedUser

/-- The signup route against the in-memory storage. -/
def signup (db : DB) (req : SignupReq) (newId : String) (now : Nat) : SignupResult :=
  signupWith (pureEnv db) db req newId now

/-- An `AuthorizedMember` Mongoose document as read by the legacy signup
handler in `src/routes/auth.js` (string-typed fields). -/
structure MongoAuthSlot where
  memberId : Option String
  phoneNumber : Option String
deriving DecidableEq, Repr

/-- The legacy handler phone cleanup `replace(/[\s\-\(\)]/g, "").trim()`. -/
def authJsStripPhone (s : String) : String :=
  jsTrim (String.mk (s.data.filter (fun c =>
    !(Char.isWhitespace c || c = '-' || c = '(' || c = ')'))))

/-- The match classification of the legacy Mongo signup handler
(`src/routes/auth.js` lines 112-166): count matching fields; two matches
auto-verify; one match auto-verifies when the registry record lacks the
other field; otherwise pending.  Returns `isVerified` and `accountStatus`. -/
def authJsVerdict (slot : Option MongoAuthSlot) (normalizedMemberId normalizedPhone : String) :
    Bool × String :=
  match slot with
  | none => (false, "pending")
  | some m =>
    let authorizedPhone := authJsStripPhone (m.phoneNumber.getD "")
    let authorizedMemberId := m.memberId.getD ""
    let midMatch := authorizedMemberId ≠ "" && normalizedMemberId = authorizedMemberId
    let phMatch := authorizedPhone ≠ "" && normalizedPhone = authorizedPhone
    let matchCount := (if midMatch then 1 else 0) + (if phMatch then 1 else 0)
    if matchCount = 2 then (true, "approved")
    else if matchCount = 1 then
      if authorizedMemberId ≠ "" && authorizedPhone = "" then (true, "approved")
      else if authorizedMemberId = "" && authorizedPhone ≠ "" then (true, "approved")
      else (false, "pending")
    else (false, "pending")

/-- How an admin approval request ends. -/
inductive AdminResult where
  | notFound
  | notPending
  | ok (db : DB) (user : UserDoc)
deriving DecidableEq, Repr

/-- `PUT /api/admin/users/:id/approve` (`src/routes/admin.js` lines
339-375): set the account approved/verified and record the approver; no
other record is touched. -/
def approveUserRoute (db : DB) (userId adminId : String) (now : Nat) : AdminResult :=
  match db.users.find? (fun u => u.id = userId) with
  | none => .notFound
  | some u =>
    let upd : UserDoc → UserDoc := fun v =>
      if v.id = userId then
        { v with
          accountStatus := "approved", requiresAdminApproval := false
          verificationStatus := "verified", approvedAt := some now
          approvedBy := some adminId }
      else v
    .ok { db with users := db.users.map upd }
      { u with
        accountStatus := "approved", requiresAdminApproval := false
        verificationStatus := "verified", approvedAt := some now
        approvedBy := some adminId }

/-- `POST /api/admin/pending-users/:id/approve` (`src/routes/admin.js` lines
1029-1086): like the PUT variant but only for accounts currently pending,
recording the reviewer; no other record is touched. -/
def approvePendingUserRoute (db : DB) (userId adminId : String) (now : Nat) : AdminResult :=
  match db.users.find? (fun u => u.id = userId) with
  | none => .notFound
  | some u =>
    if u.accountStatus ≠ "pending" then .notPending
    else
      let upd : UserDoc → UserDoc := fun v =>
        if v.id = userId then
          { v with
            accountStatus := "approved", verificationStatus := "verified"
            requiresAdminApproval := false, reviewedBy := some adminId
            reviewedAt := some now }
        else v
      .ok { db with users := db.users.map upd }
        { u with
          accountStatus := "approved", verificationStatus := "verified"
          requiresAdminApproval := false, reviewedBy := some adminId
          reviewedAt := some now }

/-- Spec-worded strict phone normalizer, used to compare the claim text of
C5 with the source: strip all non-digit characters, then accept 11 digits
with a leading trunk-prefix `0`, 12 digits with the `91` country code, or
exactly 10 digits; every other length yields null. -/
def claimNormalizePhone (value : String) : Option String :=
  let digits := keepDigits value
  if digits.length = 11 && digits.head? = some '0' then some (String.mk (digits.drop 1))
  else if digits.length = 12 && digits.take 2 = ['9', '1'] then some (String.mk (digits.drop 2))
  else if digits.length = 10 then some (String.mk digits)
  else none

/-- Amended strict phone normalizer, worded as the corrected claim: an input
containing a decimal point or exponent marker is first coerced through
JavaScript number truncation; if no digits remain after stripping (or the
trimmed input is empty) the result is the empty string; then an 11-digit
result with leading `0` drops that digit, a 12-digit result with leading
`91` drops that prefix, an exactly-10-digit result is returned, and every
other digit count yields null. -/
def amendedNormalizePhone (value : String) : Option String :=
  let raw := jsTrim value
  let coerced : String :=
    if hasEDot raw then
      match jsTruncNumber raw with
      | some n => toString n
      | none => raw
    else raw
  let digits := if raw = "" then [] else keepDigits coerced
  if digits.isEmpty then some ""
  else if digits.length = 10 then some (String.mk digits)
  else if digits.length = 11 && digits.head? = some '0' then some (String.mk (digits.drop 1))
  else if digits.length = 12 && digits.take 2 = ['9', '1'] then some (String.mk (digits.drop 2))
  else none

/-- Spec-worded four-strategy member-id lookup (claim C9), built as an
ordered fallback chain: primary-key fetch, string field equality, numeric
field equality when plausible, then the normalized shadow field. -/
def claimLookupMemberId (v : String) (reg : List AuthSlot) : Option AuthSlot :=
  if v = "" then none
  else
    (reg.find? (fun s => s.docId = v)) <|>
    (reg.find? (fun s => s.memberId = some (.js v))) <|>
    ((maybeNumber v).bind (fun n => reg.find? (fun s => s.memberId = some (.jn n)))) <|>
    (reg.find? (fun s => s.memberIdNormalized = some v))

/-- Spec-worded four-strategy phone lookup (claim C9): the same chain as the
member-id lookup applied to the phone field, including the primary-key
fetch. -/
def claimLookupPhoneFour (v : String) (reg : List AuthSlot) : Option AuthSlot :=
  if v = "" then none
  else
    (reg.find? (fun s => s.docId = v)) <|>
    (reg.find? (fun s => s.phoneNumber = some (.js v))) <|>
    ((maybeNumber v).bind (fun n => reg.find? (fun s => s.phoneNumber = some (.jn n)))) <|>
    (reg.find? (fun s => s.phoneNormalized = some v))

/-- Amended three-strategy phone lookup (corrected claim C9): string field
equality, numeric field equality when plausible, then the normalized shadow
field; there is no primary-key fetch on the phone path. -/
def amendedLookupPhone (v : String) (reg : List AuthSlot) : Option AuthSlot :=
  if v = "" then none
  else
    (reg.find? (fun s => s.phoneNumber = some (.js v))) <|>
    ((maybeNumber v).bind (fun n => reg.find? (fun s => s.phoneNumber = some (.jn n)))) <|>
    (reg.find? (fun s => s.phoneNormalized = some v))

/-- Projection: the `accountStatus` of the account a signup created. -/
def createdStatus : SignupResult → Option String
  | .created _ u => some u.accountStatus
  | .error _ => none

/-- Projection: the canonical phone of the account a signup created. -/
def createdPhone : SignupResult → Option String
  | .created _ u => some u.phone
  | .error _ => none

/-- Projection: the `verificationStatus` of the account a signup created. -/
def createdVerification : SignupResult → Option String
  | .created _ u => some u.verificationStatus
  | .error _ => none

/-- Projection: the `requiresAdminApproval` flag of the account a signup
created. -/
def createdRequiresApproval : SignupResult → Option Bool
  | .created _ u => some u.requiresAdminApproval
  | .error _ => none

/-- Projection: the document id of the account a signup created. -/
def createdUserId : SignupResult → Option String
  | .created _ u => some u.id
  | .error _ => none

/-- Projection: the `rejectionReason` of the account a signup created. -/
def createdRejection : SignupResult → Option String
  | .created _ u => some u.rejectionReason
  | .error _ => none

/-- Projection: the `reappliedAt` stamp of the account a signup created. -/
def createdReappliedAt : SignupResult → Option (Option Nat)
  | .created _ u => some u.reappliedAt
  | .error _ => none

/-- Projection: how many account records exist after a successful signup. -/
def createdUsersLen : SignupResult → Option Nat
  | .created db _ => some db.users.length
  | .error _ => none

/-- Projection: the registry after a successful signup. -/
def createdRegistry : SignupResult → Option (List AuthSlot)
  | .created db _ => some db.registry
  | .error _ => none

/-- Projection: the registry after an admin-approval request succeeded. -/
def adminOkRegistry : AdminResult → Option (List AuthSlot)
  | .ok db _ => some db.registry
  | _ => none

/-- Projection: the account an admin-approval request returned. -/
def adminOkUser : AdminResult → Option UserDoc
  | .ok _ u => some u
  | _ => none

/-- A storage collaborator whose every lookup raises, exercising the
verification-phase `catch`. -/
def errEnv : VerifyEnv :=
  { lookupMember := fun _ => .error ()
    lookupPhone := fun _ => .error ()
    getUserById := fun _ => .error () }

/-- Test fixture: an unused slot registered with member id `M001` and phone
`9876543210`. -/
def slotM1 : AuthSlot :=
  { docId := "M001", memberId := some (.js "M001")
    phoneNumber := some (.js "9876543210")
    memberIdNormalized := none, phoneNormalized := none
    isUsed := false, usedBy := none, usedAt := none }

/-- Test fixture: the `M001` slot with no phone on file. -/
def slotM1NoPhone : AuthSlot := { slotM1 with phoneNumber := none }

/-- Test fixture: a used `M002` slot claimed by the account id `ghost`. -/
def slotM2Ghost : AuthSlot :=
  { docId := "M002", memberId := some (.js "M002")
    phoneNumber := some (.js "9876543210")
    memberIdNormalized := none, phoneNormalized := none
    isUsed := true, usedBy := some "ghost", usedAt := some 1 }

/-- Test fixture: a live account with document id `ghost`. -/
def ghostUser : UserDoc :=
  { id := "ghost", name := "G", email := "g@x.com", role := "user"
    phone := "", memberId := "OLD"
    accountStatus := "approved", verificationStatus := "verified"
    requiresAdminApproval := false, rejectionReason := ""
    rejectedAt := none, rejectedBy := none, approvedAt := none
    approvedBy := none, reappliedAt := none, reviewedAt := none
    reviewedBy := none }

/-- Test fixture: a rejected account holding member id `M003` and email
`a@x.com`. -/
def rejectedM3 : UserDoc :=
  { ghostUser with
    id := "u1", memberId := "M003", email := "a@x.com"
    accountStatus := "rejected", rejectionReason := "incomplete" }

/-- Test fixture: a pending account holding member id `M777`. -/
def pendingM777 : UserDoc :=
  { ghostUser with
    id := "u2", memberId := "M777"
    accountStatus := "pending", verificationStatus := "pending_admin" }

/-- Test fixture: an unused slot whose member id matches `pendingM777`. -/
def slotM777 : AuthSlot := { slotM1 with docId := "M777", memberId := some (.js "M777") }

/-- Test fixture: a slot whose document id is a phone number while its
fields hold neither that phone nor a matching member id. -/
def slotPhoneDocId : AuthSlot :=
  { docId := "9876543210", memberId := some (.js "MX"), phoneNumber := none
    memberIdNormalized := none, phoneNormalized := none
    isUsed := false, usedBy := none, usedAt := none }

/-- Test fixture: a signup request matching `slotM1` exactly. -/
def reqExact : SignupReq :=
  { name := "A", email := "a@x.com", password := "pw"
    phone := "9876543210", memberId := "M001" }

/-- Test fixture: the same signup with member id `M002` (matches
`slotM2Ghost`). -/
def reqM2 : SignupReq := { reqExact with memberId := "M002" }

/-- Test fixture: a re-application for `rejectedM3` carrying the same
member id but a different email. -/
def reqM3OtherEmail : SignupReq :=
  { name := "A", email := "b@x.com", password := "pw"
    phone := "9876543210", memberId := "M003" }

/-- Test fixture: a re-application for `rejectedM3` carrying the same
member id and the same email. -/
def reqM3Same : SignupReq := { reqM3OtherEmail with email := "a@x.com" }

/-- Test fixture DBs. -/
def dbM1 : DB := { users := [], registry := [slotM1] }

def dbM1NoPhone : DB := { users := [], registry := [slotM1NoPhone] }

def dbGhostStale : DB := { users := [], registry := [slotM2Ghost] }

def dbGhostLive : DB := { users := [ghostUser], registry := [slotM2Ghost] }

def dbRejected : DB := { users := [rejectedM3], registry := [] }

def dbPending777 : DB := { users := [pendingM777], registry := [slotM777] }

def dbPhoneDocId : DB := { users := [], registry := [slotPhoneDocId] }

/-- Test fixture: `pendingM777` after the admin `adm` approved it at 11. -/
def approvedM777 : UserDoc :=
  { pendingM777 with
    accountStatus := "approved", verificationStatus := "verified"
    requiresAdminApproval := false, reviewedBy := some "adm"
    reviewedAt := some 11 }

/-- Test fixture: `dbPending777` after that approval. -/
def dbPending777After : DB := { users := [approvedM777], registry := [slotM777] }

/-- First-hit fallback on options, as the lookup code writes it, equals
`Option` alternation. -/
theorem firstHit_eq_orElse (o y : Option AuthSlot) :
    (match o with | some s => some s | none => y) = (o <|> y) := by
  cases o <;> rfl

/-- C1: with an unused slot on file for member id `M001` and no phone, a
signup supplying `M001` and a non-matching phone is decided pending by the
Firestore signup handler, exactly as the claim states; but the legacy Mongo
handler in `src/routes/auth.js` auto-verifies the same single-field match
because the slot lacks the other field, contradicting the claim and the
repository documentation that only exact matches are auto-approved. -/
theorem C1_single_field_match_divergence :
    verifyPhase (pureEnv dbM1NoPhone) "M001" "9876543211"
      = .done (pendingOutcome (some slotM1NoPhone) none)
    ∧ authJsVerdict (some { memberId := some "M001", phoneNumber := none }) "M001" "9876543211"
      = (true, "approved") := by
  decide

/-- C2: the registry-claim write is an unconditional update, not a
conditional update guarded by `isUsed == false`: two concurrent signups that
both observe the `M001` slot unused both auto-approve, each claim write
succeeds even though the second runs against an already-claimed slot, and
the slot ends recording only the later account, so the earlier approved
account holds no claim. -/
theorem C2_unconditional_claim_write_race :
    createdStatus (signup dbM1 reqExact "uidA" 1) = some "approved"
    ∧ createdStatus (signup dbM1 { reqExact with email := "c@x.com" } "uidB" 2) = some "approved"
    ∧ claimWrite (claimWrite dbM1.registry "M001" "uidA" 1) "M001" "uidB" 2
      = [{ slotM1 with isUsed := true, usedBy := some "uidB", usedAt := some 2 }]
    ∧ markAsUsed (markAsUsed slotM1 "uidA" 1) "uidB" 2
      = { slotM1 with isUsed := true, usedBy := some "uidB", usedAt := some 2 } := by
  decide

/-- C5 counterexample: the claim describes strict normalization as stripping
non-digits and casing on the digit count, but the source first coerces
decimal- or exponent-shaped inputs through `Number`: on `"1234567890.0"`
the source accepts `"1234567890"` while the claimed algorithm, seeing 12
stripped digits that do not start with `91`, would return null. -/
theorem C5_counterexample :
    normalizePhoneProvided "1234567890.0" = some "1234567890"
    ∧ claimNormalizePhone "1234567890.0" = none := by
  decide

/-- C7 counterexample: a rejected account with member id `M003` and email
`a@x.com` re-signs up with the same member id but the email `b@x.com`; the
claim says the account is updated in place, but the handler rejects the
signup outright because re-application requires the member-id collision to
carry the same email. -/
theorem C7_counterexample :
    signup dbRejected reqM3OtherEmail "uidD" 9
      = .error "Member ID already exists. Please use a different Member ID." := by
  decide

/-- C8 counterexample: approving the pending account `u2` (member id
`M777`) succeeds, but the registry slot `M777` that matches the account —
unused and unclaimed — is left untouched, contradicting the claim that the
approve transition also marks the registry slot claim used. -/
theorem C8_counterexample :
    adminOkUser (approvePendingUserRoute dbPending777 "u2" "adm" 11)
      = some { pendingM777 with
               accountStatus := "approved", verificationStatus := "verified"
               requiresAdminApproval := false, reviewedBy := some "adm"
               reviewedAt := some 11 }
    ∧ adminOkRegistry (approvePendingUserRoute dbPending777 "u2" "adm" 11) = some [slotM777]
    ∧ slotM777.isUsed = false
    ∧ slotM777.usedBy = none
    ∧ slotM777.memberId = some (.js pendingM777.memberId) := by
  decide

/-- C9 counterexample: a slot whose document id is the phone number
`9876543210` is found by the member-id lookup (whose first strategy is the
primary-key fetch) but not by the phone lookup, which has no primary-key
strategy; the four-strategy phone lookup described by the claim would have
found it. -/
theorem C9_counterexample :
    getAuthorizedByPhone "9876543210" dbPhoneDocId.registry = none
    ∧ claimLookupPhoneFour "9876543210" dbPhoneDocId.registry = some slotPhoneDocId
    ∧ getAuthorizedByMemberId "9876543210" dbPhoneDocId.registry = some slotPhoneDocId := by
  decide

/-- C9 amended: member-id lookup is the claimed ordered four-strategy
fallback chain (primary key, string field, numeric field when plausible,
normalized shadow field), but phone lookup runs only the latter three field
strategies, with no primary-key fetch. -/
theorem C9_lookup_strategy_order :
    (∀ v reg, getAuthorizedByMemberId v reg = claimLookupMemberId v reg)
    ∧ (∀ v reg, getAuthorizedByPhone v reg = amendedLookupPhone v reg) := by
  constructor
  · intro v reg
    unfold getAuthorizedByMemberId claimLookupMemberId
    split
    · rfl
    · cases h3 : maybeNumber v <;>
        simp [h3, firstHit_eq_orElse]
  · intro v reg
    unfold getAuthorizedByPhone amendedLookupPhone
    split
    · rfl
    · cases h3 : maybeNumber v <;>
        simp [h3, firstHit_eq_orElse]

/-- C8 amended: both admin approval routes set the account approved,
verified and no longer requiring approval, and leave every other record —
in particular the whole authorized-members registry — unchanged; no
registry-slot claim is verified or marked used by approval. -/
theorem C8_approve_sets_status_only :
    (∀ db userId adminId now db' u,
      approvePendingUserRoute db userId adminId now = .ok db' u →
      db'.registry = db.registry
      ∧ u.accountStatus = "approved"
      ∧ u.verificationStatus = "verified"
      ∧ u.requiresAdminApproval = false)
    ∧ (∀ db userId adminId now db' u,
      approveUserRoute db userId adminId now = .ok db' u →
      db'.registry = db.registry
      ∧ u.accountStatus = "approved"
      ∧ u.verificationStatus = "verified"
      ∧ u.requiresAdminApproval = false) := by
  constructor
  · intro db userId adminId now db' u h
    unfold approvePendingUserRoute at h
    split at h
    · exact AdminResult.noConfusion h
    · split at h
      · exact AdminResult.noConfusion h
      · cases h
        exact ⟨rfl, rfl, rfl, rfl⟩
  · intro db userId adminId now db' u h
    unfold approveUserRoute at h
    split at h
    · exact AdminResult.noConfusion h
    · cases h
      exact ⟨rfl, rfl, rfl, rfl⟩

/-- C8 witness: approving the pending `M777` account leaves the registry of
`dbPending777` unchanged while the account itself becomes approved. -/
theorem C8_approve_sets_status_only_witness :
    dbPending777After.registry = dbPending777.registry
    ∧ approvedM777.accountStatus = "approved"
    ∧ approvedM777.verificationStatus = "verified"
    ∧ approvedM777.requiresAdminApproval = false :=
  C8_approve_sets_status_only.1 dbPending777 "u2" "adm" 11 dbPending777After approvedM777
    (by decide)

/-- C6: any unexpected error raised during the verification phase (a
rejected registry or account lookup) is caught by the handler: the signup
still creates the account, with status pending and verification
pending-admin — never approved — and no registry write occurs. -/
theorem C6_verification_error_fails_closed
    (env : VerifyEnv) (db : DB) (req : SignupReq) (newId : String) (now : Nat)
    (hname : req.name ≠ "") (hpw : req.password ≠ "")
    (hemail : jsToLower (jsTrim req.email) ≠ "")
    (hmid : normalizeMemberId req.memberId ≠ "")
    (hnomid : db.users.find? (fun u => u.memberId = normalizeMemberId req.memberId) = none)
    (hnoemail : db.users.find? (fun u => u.email = jsToLower (jsTrim req.email)) = none)
    (herr : verifyInner env (normalizeMemberId req.memberId) req.phone = .error ()) :
    createdStatus (signupWith env db req newId now) = some "pending"
    ∧ createdVerification (signupWith env db req newId now) = some "pending_admin"
    ∧ createdRequiresApproval (signupWith env db req newId now) = some true
    ∧ createdRegistry (signupWith env db req newId now) = some db.registry := by
  have hphase : verifyPhase env (normalizeMemberId req.memberId) req.phone
      = .done (pendingOutcome none none) := by
    unfold verifyPhase
    rw [herr]
  refine ⟨?_, ?_, ?_, ?_⟩ <;>
    simp only [signupWith, hnomid, hnoemail, reapplyCheck, hphase] <;>
    simp [hname, hpw, hemail, hmid, pendingOutcome, applyStaleReset,
      createdStatus, createdVerification, createdRequiresApproval, createdRegistry]

/-- C6 witness: a storage collaborator whose every lookup raises still
yields a created, pending, unapproved account. -/
theorem C6_verification_error_fails_closed_witness :
    createdStatus (signupWith errEnv { users := [], registry := [] } reqExact "uidW" 3)
      = some "pending"
    ∧ createdVerification (signupWith errEnv { users := [], registry := [] } reqExact "uidW" 3)
      = some "pending_admin"
    ∧ createdRequiresApproval (signupWith errEnv { users := [], registry := [] } reqExact "uidW" 3)
      = some true
    ∧ createdRegistry (signupWith errEnv { users := [], registry := [] } reqExact "uidW" 3)
      = some ({ users := [], registry := [] } : DB).registry :=
  C6_verification_error_fails_closed errEnv { users := [], registry := [] } reqExact "uidW" 3
    (by decide) (by decide) (by decide) (by decide) (by decide) (by decide) (by rfl)

/-- C4: a signup whose member id or phone matches a used slot whose claim
references a still-existing account is rejected outright with the
duplicate-registration error: no account record is written and the decision
never reaches pending. -/
theorem C4_live_claim_blocks_signup
    (env : VerifyEnv) (db : DB) (req : SignupReq) (newId : String) (now : Nat)
    (s : AuthSlot) (np uid : String) (w : UserDoc)
    (hname : req.name ≠ "") (hpw : req.password ≠ "")
    (hemail : jsToLower (jsTrim req.email) ≠ "")
    (hmid : normalizeMemberId req.memberId ≠ "")
    (hnomid : db.users.find? (fun u => u.memberId = normalizeMemberId req.memberId) = none)
    (hnoemail : db.users.find? (fun u => u.email = jsToLower (jsTrim req.email)) = none)
    (hphone : normalizePhoneProvided req.phone = some np) (hnp : np ≠ "")
    (hlookup : env.lookupMember (normalizeMemberId req.memberId) = .ok (some s))
    (hused : s.isUsed = true)
    (hmatch : (slotNormMemberId s ≠ "" ∧ normalizeMemberId req.memberId = slotNormMemberId s)
      ∨ (slotLenientPhone s ≠ "" ∧ np = slotLenientPhone s))
    (husedby : s.usedBy = some uid) (huid : uid ≠ "")
    (hlive : env.getUserById uid = .ok (some w)) :
    signupWith env db req newId now
      = .error "This Member ID / phone number is already registered. Please login or contact admin." := by
  have hinner : verifyInner env (normalizeMemberId req.memberId) req.phone = .ok .duplicate := by
    rcases hmatch with ⟨h1, h2⟩ | ⟨h1, h2⟩ <;>
      simp only [verifyInner, hphone, hlookup, husedby, hlive] <;>
      simp [hnp, hused, h1, h2, huid]
  have hphase : verifyPhase env (normalizeMemberId req.memberId) req.phone = .duplicate := by
    unfold verifyPhase
    rw [hinner]
  simp only [signupWith, hnomid, hnoemail, reapplyCheck, hphase]
  simp [hname, hpw, hemail, hmid]

/-- C4 witness: the used `M002` slot claimed by the live account `ghost`
blocks a matching signup with the duplicate-registration error. -/
theorem C4_live_claim_blocks_signup_witness :
    signupWith (pureEnv dbGhostLive) dbGhostLive reqM2 "uidC" 7
      = .error "This Member ID / phone number is already registered. Please login or contact admin." :=
  C4_live_claim_blocks_signup (pureEnv dbGhostLive) dbGhostLive reqM2 "uidC" 7
    slotM2Ghost "9876543210" "ghost" ghostUser
    (by decide) (by decide) (by decide) (by decide) (by decide) (by decide)
    (by decide) (by decide) (by rfl) (by decide)
    (Or.inl ⟨by decide, by decide⟩) (by decide) (by decide) (by rfl)

/-- C3: when a signup matches a used slot whose `usedBy` reference is
missing, empty, or names an account that no longer exists, the handler
clears `isUsed`, `usedBy` and `usedAt` on the slot and re-evaluates the
match as unused; with both the member id and the phone matching, the
decision is verified, the account is created approved, and the reset slot is
re-claimed for the new account. -/
theorem C3_stale_lock_recovery
    (env : VerifyEnv) (db : DB) (req : SignupReq) (newId : String) (now : Nat)
    (s : AuthSlot) (np : String)
    (hname : req.name ≠ "") (hpw : req.password ≠ "")
    (hemail : jsToLower (jsTrim req.email) ≠ "")
    (hmid : normalizeMemberId req.memberId ≠ "")
    (hnomid : db.users.find? (fun u => u.memberId = normalizeMemberId req.memberId) = none)
    (hnoemail : db.users.find? (fun u => u.email = jsToLower (jsTrim req.email)) = none)
    (hphone : normalizePhoneProvided req.phone = some np)
    (hlookup : env.lookupMember (normalizeMemberId req.memberId) = .ok (some s))
    (hused : s.isUsed = true)
    (hstale : s.usedBy = none ∨ s.usedBy = some ""
      ∨ ∃ uid, s.usedBy = some uid ∧ uid ≠ "" ∧ env.getUserById uid = .ok none)
    (hmidm : slotNormMemberId s ≠ "" ∧ normalizeMemberId req.memberId = slotNormMemberId s)
    (hphm : slotLenientPhone s ≠ "" ∧ np = slotLenientPhone s) :
    verifyPhase env (normalizeMemberId req.memberId) req.phone
      = .done (verifiedOutcome (some { s with isUsed := false, usedBy := none, usedAt := none })
          (some s.docId))
    ∧ createdStatus (signupWith env db req newId now) = some "approved"
    ∧ createdVerification (signupWith env db req newId now) = some "verified"
    ∧ createdUserId (signupWith env db req newId now) = some newId
    ∧ createdRegistry (signupWith env db req newId now)
      = some (claimWrite (applyStaleReset db.registry (some s.docId)) s.docId newId now) := by
  obtain ⟨h1, h2⟩ := hmidm
  obtain ⟨h3, h4⟩ := hphm
  have hinner : verifyInner env (normalizeMemberId req.memberId) req.phone
      = .ok (.done (verifiedOutcome
          (some { s with isUsed := false, usedBy := none, usedAt := none }) (some s.docId))) := by
    rcases hstale with h5 | h5 | ⟨uid, h5, h6, h7⟩
    · simp only [verifyInner, hphone, hlookup, h5]
      simp [hused, h1, h2, h3, h4]
    · simp only [verifyInner, hphone, hlookup, h5]
      simp [hused, h1, h2, h3, h4]
    · simp only [verifyInner, hphone, hlookup, h5, h7]
      simp [hused, h1, h2, h3, h4, h6]
  have hphase : verifyPhase env (normalizeMemberId req.memberId) req.phone
      = .done (verifiedOutcome
          (some { s with isUsed := false, usedBy := none, usedAt := none }) (some s.docId)) := by
    unfold verifyPhase
    rw [hinner]
  refine ⟨hphase, ?_, ?_, ?_, ?_⟩ <;>
    simp only [signupWith, hnomid, hnoemail, reapplyCheck, hphase] <;>
    simp [hname, hpw, hemail, hmid, verifiedOutcome,
      createdStatus, createdVerification, createdUserId, createdRegistry]

/-- C3 witness: the used `M002` slot claimed by the vanished account
`ghost` is reset and re-claimed; the matching signup is auto-approved. -/
theorem C3_stale_lock_recovery_witness :
    verifyPhase (pureEnv dbGhostStale) (normalizeMemberId reqM2.memberId) reqM2.phone
      = .done (verifiedOutcome
          (some { slotM2Ghost with isUsed := false, usedBy := none, usedAt := none })
          (some slotM2Ghost.docId))
    ∧ createdStatus (signupWith (pureEnv dbGhostStale) dbGhostStale reqM2 "uidB" 7)
      = some "approved"
    ∧ createdVerification (signupWith (pureEnv dbGhostStale) dbGhostStale reqM2 "uidB" 7)
      = some "verified"
    ∧ createdUserId (signupWith (pureEnv dbGhostStale) dbGhostStale reqM2 "uidB" 7)
      = some "uidB"
    ∧ createdRegistry (signupWith (pureEnv dbGhostStale) dbGhostStale reqM2 "uidB" 7)
      = some (claimWrite (applyStaleReset dbGhostStale.registry (some slotM2Ghost.docId))
          slotM2Ghost.docId "uidB" 7) :=
  C3_stale_lock_recovery (pureEnv dbGhostStale) dbGhostStale reqM2 "uidB" 7
    slotM2Ghost "9876543210"
    (by decide) (by decide) (by decide) (by decide) (by decide) (by decide)
    (by decide) (by rfl) (by decide)
    (Or.inr (Or.inr ⟨"ghost", by decide, by decide, by rfl⟩))
    ⟨by decide, by decide⟩ ⟨by decide, by decide⟩

/-- C7 amended: a signup whose member id and email both equal those of an
existing pending or rejected account updates that account in place —
rejection reason cleared, re-application stamp set, record count unchanged,
status taken from the fresh verification decision; a member-id collision
with an approved account is rejected as a duplicate (as is, per the
counterexample, a pending/rejected collision agreeing on only one of the
two fields). -/
theorem C7_reapply_requires_both_fields :
    (∀ db req newId now u o,
      req.name ≠ "" → req.password ≠ "" →
      jsToLower (jsTrim req.email) ≠ "" → normalizeMemberId req.memberId ≠ "" →
      db.users.find? (fun v => v.memberId = normalizeMemberId req.memberId) = some u →
      db.users.find? (fun v => v.email = jsToLower (jsTrim req.email)) = some u →
      u.email = jsToLower (jsTrim req.email) →
      isReapplicable u = true →
      verifyPhase (pureEnv db) (normalizeMemberId req.memberId) req.phone = .done o →
      createdUserId (signup db req newId now) = some u.id
      ∧ createdRejection (signup db req newId now) = some ""
      ∧ createdReappliedAt (signup db req newId now) = some (some now)
      ∧ createdUsersLen (signup db req newId now) = some db.users.length
      ∧ createdStatus (signup db req newId now) = some o.accountStatus)
    ∧ (∀ db req newId now u,
      req.name ≠ "" → req.password ≠ "" →
      jsToLower (jsTrim req.email) ≠ "" → normalizeMemberId req.memberId ≠ "" →
      db.users.find? (fun v => v.memberId = normalizeMemberId req.memberId) = some u →
      u.accountStatus = "approved" →
      signup db req newId now
        = .error "Member ID already exists. Please use a different Member ID.") := by
  constructor
  · intro db req newId now u o hname hpw hemail hmid hfindm hfinde hEm hreap hphase
    have hre : reapplyCheck (some u) (some u)
        (jsToLower (jsTrim req.email)) (normalizeMemberId req.memberId) = .ok (some u) := by
      simp [reapplyCheck, hEm, hreap]
    refine ⟨?_, ?_, ?_, ?_, ?_⟩ <;>
      simp only [signup, signupWith, hfindm, hfinde, hre, hphase] <;>
      simp [hname, hpw, hemail, hmid,
        createdUserId, createdRejection, createdReappliedAt, createdUsersLen, createdStatus]
  · intro db req newId now u hname hpw hemail hmid hfindm happr
    have hra : isReapplicable u = false := by
      simp [isReapplicable, happr]
    simp only [signup, signupWith, hfindm, reapplyCheck, hra]
    simp [hname, hpw, hemail, hmid]

/-- C7 witness: the rejected `M003` account re-applies with the same member
id and email; the single record is updated in place with the rejection
reason cleared and the re-application stamp set. -/
theorem C7_reapply_requires_both_fields_witness :
    createdUserId (signup dbRejected reqM3Same "uidE" 9) = some rejectedM3.id
    ∧ createdRejection (signup dbRejected reqM3Same "uidE" 9) = some ""
    ∧ createdReappliedAt (signup dbRejected reqM3Same "uidE" 9) = some (some 9)
    ∧ createdUsersLen (signup dbRejected reqM3Same "uidE" 9) = some dbRejected.users.length
    ∧ createdStatus (signup dbRejected reqM3Same "uidE" 9)
      = some (pendingOutcome none none).accountStatus :=
  C7_reapply_requires_both_fields.1 dbRejected reqM3Same "uidE" 9 rejectedM3
    (pendingOutcome none none)
    (by decide) (by decide) (by decide) (by decide) (by decide) (by decide)
    (by decide) (by decide) (by rfl)

/-- A signup phone that fails strict normalization ends the verification
phase with the invalid-phone rejection. -/
theorem verifyPhase_invalid_of_null (env : VerifyEnv) (nmid phone : String)
    (h : normalizePhoneProvided phone = none) :
    verifyPhase env nmid phone = .invalidPhone := by
  simp [verifyPhase, verifyInner, h]

/-- C5 amended: the strict normalizer equals the claimed strip-then-case
algorithm amended in two points — inputs containing a decimal point or
exponent marker are numerically coerced before stripping, and an input with
no digits yields the empty string rather than null; `"123"` and
`"12345678901234"` still normalize to null, and a null normalization makes
the signup fail with the invalid-phone error no matter what the registry
holds. -/
theorem C5_strict_phone_normalization :
    (∀ s, normalizePhoneProvided s = amendedNormalizePhone s)
    ∧ normalizePhoneProvided "123" = none
    ∧ normalizePhoneProvided "12345678901234" = none
    ∧ (∀ env db req newId now,
      req.name ≠ "" → req.password ≠ "" →
      jsToLower (jsTrim req.email) ≠ "" → normalizeMemberId req.memberId ≠ "" →
      db.users.find? (fun v => v.memberId = normalizeMemberId req.memberId) = none →
      db.users.find? (fun v => v.email = jsToLower (jsTrim req.email)) = none →
      normalizePhoneProvided req.phone = none →
      signupWith env db req newId now
        = .error "Invalid phone number. Please enter a 10-digit phone number (or +91 / leading 0).") := by
  refine ⟨?_, by decide, by decide, ?_⟩
  · intro s
    unfold normalizePhoneProvided amendedNormalizePhone
    by_cases h : jsTrim s = ""
    · simp [h]
    · simp only [h, if_neg, if_false]
      by_cases h10 : (keepDigits (if hasEDot (jsTrim s) then
          match jsTruncNumber (jsTrim s) with
          | some n => toString n
          | none => jsTrim s
        else jsTrim s)).length = 10 <;>
        simp [h10]
  · intro env db req newId now hname hpw hemail hmid hnomid hnoemail hnull
    have hphase := verifyPhase_invalid_of_null env (normalizeMemberId req.memberId) req.phone hnull
    simp only [signupWith, hnomid, hnoemail, reapplyCheck, hphase]
    simp [hname, hpw, hemail, hmid]

/-- C5 witness: the ambiguous phone `"123"` fails the signup with the
invalid-phone error even against a storage collaborator whose lookups all
raise, so no registry matching is involved. -/
theorem C5_strict_phone_normalization_witness :
    signupWith errEnv { users := [], registry := [] } { reqExact with phone := "123" } "uidV" 4
      = .error "Invalid phone number. Please enter a 10-digit phone number (or +91 / leading 0)." :=
  C5_strict_phone_normalization.2.2.2 errEnv { users := [], registry := [] }
    { reqExact with phone := "123" } "uidV" 4
    (by decide) (by decide) (by decide) (by decide) (by decide) (by decide) (by decide)

/-- Every character kept by the digit filter is a digit. -/
theorem keepDigits_all (s : String) : (keepDigits s).all Char.isDigit = true := by
  rw [keepDigits, List.all_eq_true]
  intro a ha
  exact List.of_mem_filter ha

/-- Digit-only lists stay digit-only after a drop. -/
theorem all_isDigit_drop (l : List Char) (n : Nat) (h : l.all Char.isDigit = true) :
    (l.drop n).all Char.isDigit = true := by
  rw [List.all_eq_true] at h ⊢
  intro a ha
  exact h a (List.mem_of_mem_drop ha)

/-- Shape of the strict normalizer output: null, the empty string, or a
string of exactly ten digits. -/
theorem normalizePhoneProvided_shape (s : String) :
    normalizePhoneProvided s = none ∨ normalizePhoneProvided s = some ""
    ∨ ∃ r, normalizePhoneProvided s = some r ∧ r.length = 10 ∧ r.data.all Char.isDigit = true := by
  unfold normalizePhoneProvided
  by_cases h : jsTrim s = ""
  · simp [h]
  · simp only [h, if_false]
    have hall : (keepDigits (if hasEDot (jsTrim s) then
        match jsTruncNumber (jsTrim s) with
        | some n => toString n
        | none => jsTrim s
      else jsTrim s)).all Char.isDigit = true := keepDigits_all _
    generalize hd : keepDigits (if hasEDot (jsTrim s) then
        match jsTruncNumber (jsTrim s) with
        | some n => toString n
        | none => jsTrim s
      else jsTrim s) = d at hall ⊢
    split_ifs with h0 h11 h12 h10
    · right; left; rfl
    · right; right
      simp only [Bool.and_eq_true, decide_eq_true_eq] at h11
      refine ⟨String.mk (d.drop 1), rfl, ?_, all_isDigit_drop d 1 hall⟩
      show (d.drop 1).length = 10
      rw [List.length_drop, h11.1]
    · right; right
      simp only [Bool.and_eq_true, decide_eq_true_eq] at h12
      refine ⟨String.mk (d.drop 2), rfl, ?_, all_isDigit_drop d 2 hall⟩
      show (d.drop 2).length = 10
      rw [List.length_drop, h12.1]
    · right; right
      exact ⟨String.mk d, rfl, h10, hall⟩
    · left; rfl

/-- C10: the strict phone normalizer returns only null, the empty string,
or a string of exactly ten digits, and consequently every account record a
signup writes stores a canonical phone that is empty or exactly ten
digits. -/
theorem C10_canonical_phone_invariant :
    (∀ s, normalizePhoneProvided s = none ∨ normalizePhoneProvided s = some ""
      ∨ ∃ r, normalizePhoneProvided s = some r ∧ r.length = 10 ∧ r.data.all Char.isDigit = true)
    ∧ (∀ env db req newId now p,
      createdPhone (signupWith env db req newId now) = some p →
      p = "" ∨ (p.length = 10 ∧ p.data.all Char.isDigit = true)) := by
  refine ⟨normalizePhoneProvided_shape, ?_⟩
  intro env db req newId now p hp
  simp only [signupWith] at hp
  by_cases hv : (req.name = "" || jsToLower (jsTrim req.email) = "" || req.password = ""
      || normalizeMemberId req.memberId = "") = true
  · rw [if_pos hv] at hp
    exact absurd hp (by simp [createdPhone])
  · rw [if_neg hv] at hp
    cases hre : reapplyCheck
        (db.users.find? (fun u => u.memberId = normalizeMemberId req.memberId))
        (db.users.find? (fun u => u.email = jsToLower (jsTrim req.email)))
        (jsToLower (jsTrim req.email)) (normalizeMemberId req.memberId) with
    | error m =>
      rw [hre] at hp
      exact absurd hp (by simp [createdPhone])
    | ok ru =>
      rw [hre] at hp
      cases hph : verifyPhase env (normalizeMemberId req.memberId) req.phone with
      | invalidPhone =>
        rw [hph] at hp
        exact absurd hp (by simp [createdPhone])
      | duplicate =>
        rw [hph] at hp
        exact absurd hp (by simp [createdPhone])
      | done o =>
        rw [hph] at hp
        cases hnp : normalizePhoneProvided req.phone with
        | none =>
          rw [verifyPhase_invalid_of_null env (normalizeMemberId req.memberId) req.phone hnp]
            at hph
          exact VerifyResult.noConfusion hph
        | some np =>
          have hshape : np = "" ∨ (np.length = 10 ∧ np.data.all Char.isDigit = true) := by
            rcases normalizePhoneProvided_shape req.phone with hs | hs | ⟨r, hr, hlen, hdig⟩
            · rw [hnp] at hs
              exact Option.noConfusion hs
            · rw [hnp] at hs
              injection hs with h'
              exact Or.inl h'
            · rw [hnp] at hr
              injection hr with h'
              subst h'
              exact Or.inr ⟨hlen, hdig⟩
          have hfield : p = "" ∨ p = np := by
            cases ru with
            | some u =>
              simp only [createdPhone, Option.some.injEq] at hp
              rw [hnp] at hp
              by_cases hq : jsTrim req.phone = ""
              · simp [hq] at hp
                exact Or.inl hp.symm
              · simp [hq] at hp
                exact Or.inr hp.symm
            | none =>
              simp only [createdPhone, Option.some.injEq] at hp
              rw [hnp] at hp
              by_cases hq : jsTrim req.phone = ""
              · simp [hq] at hp
                exact Or.inl hp.symm
              · simp [hq] at hp
                exact Or.inr hp.symm
          rcases hfield with hf | hf
          · exact Or.inl hf
          · subst hf
            exact hshape

/-- C10 witness: the account created by the exact-match signup stores the
ten-digit canonical phone. -/
theorem C10_canonical_phone_invariant_witness :
    ("9876543210" : String) = ""
    ∨ (("9876543210" : String).length = 10
       ∧ ("9876543210" : String).data.all Char.isDigit = true) :=
  C10_canonical_phone_invariant.2 (pureEnv dbM1) dbM1 reqExact "uidA" 5 "9876543210" (by decide)

end Samaj
